import Mathlib

/-!
Verification of the quantum-security scoring engine of the Quantus report-card
repository. The engine is shallowly embedded: the TypeScript record types
become Lean structures, JavaScript numbers used for balances are modelled as
rationals (only order comparisons with integer constants are performed on
them), day counts are natural numbers, and sequential mutation of the local
`score` and `recommendations` variables is rendered as let-rebinding.
`Math.round` is the identity on the scores produced here because every
deduction is an integer constant, so scores are embedded as integers.
-/

/-- Input record `EthereumAddressData` from `interfaces/EthereumSecurity.ts`
(the variant with `ensName` and `isSmartContract`). Optional fields become
`Option`. -/
structure EthereumAddressData where
  address : String
  ensName : String
  balance : String
  balanceEth : ℚ
  hasOutgoingTransactions : Bool
  firstTransactionTimestamp : Option Nat
  daysSinceFirstTransaction : Option Nat
  isSmartContract : Bool
deriving DecidableEq

/-- The grade enumeration `"A+" | "A" | "B" | "C" | "D" | "E" | "F"`. -/
inductive Grade where
  | APlus
  | A
  | B
  | C
  | D
  | E
  | F
deriving DecidableEq

/-- The risk-level enumeration
`"Very Low" | "Low" | "Medium" | "High" | "Very High"`. -/
inductive RiskLevel where
  | veryLow
  | low
  | medium
  | high
  | veryHigh
deriving DecidableEq

/-- Output record `QuantumSecurityScore`. -/
structure QuantumSecurityScore where
  score : ℤ
  grade : Grade
  riskLevel : RiskLevel
  recommendations : List String
deriving DecidableEq

/-- The `analysisDetails` sub-record of `EthereumSecurityAnalysis`. -/
structure AnalysisDetails where
  publicKeyExposed : Bool
  balanceRiskFactor : ℚ
  exposureDurationRisk : ℚ
  daysSinceExposure : Option Nat
deriving DecidableEq

/-- Output record `EthereumSecurityAnalysis`. -/
structure EthereumSecurityAnalysis where
  address : String
  addressData : EthereumAddressData
  securityScore : QuantumSecurityScore
  analysisDetails : AnalysisDetails
deriving DecidableEq

/-- `getGrade` from `utils/quantum-security-scorer.ts`. -/
def getGrade (score : ℤ) : Grade :=
  if score ≥ 95 then .APlus
  else if score ≥ 85 then .A
  else if score ≥ 75 then .B
  else if score ≥ 65 then .C
  else if score ≥ 50 then .D
  else .F

/-- `getRiskLevel` from `utils/quantum-security-scorer.ts`. -/
def getRiskLevel (score : ℤ) : RiskLevel :=
  if score ≥ 90 then .veryLow
  else if score ≥ 75 then .low
  else if score ≥ 60 then .medium
  else if score ≥ 40 then .high
  else .veryHigh

/-- Recommendation pushed when the public key is exposed. -/
def publicKeyExposedRecommendation : String :=
  "Your public key has been exposed through outgoing transactions, making it vulnerable to quantum attacks."

/-- Recommendation pushed when there are no outgoing transactions. -/
def noOutgoingRecommendation : String :=
  "Excellent! No outgoing transactions mean your public key remains secure."

/-- Duration recommendation for an exposure of more than two years. -/
def exposedYearsRecommendation (years : Nat) : String :=
  "Public key has been exposed for " ++ toString years ++
    " years, significantly increasing quantum risk."

/-- Duration recommendation for an exposure of more than one year. -/
def exposedOverAYearRecommendation (years : Nat) : String :=
  "Public key has been exposed for over a year (" ++ toString years ++
    " years), increasing quantum vulnerability."

/-- Duration recommendation for an exposure of more than six months. -/
def exposedModerateMonthsRecommendation (months : Nat) : String :=
  "Public key has been exposed for " ++ toString months ++
    " months, creating moderate quantum risk."

/-- Duration recommendation for an exposure of more than one month. -/
def exposedMonthsRecommendation (months : Nat) : String :=
  "Public key has been exposed for " ++ toString months ++ " months."

/-- Recommendation pushed for a balance above 1000 ETH. -/
def veryHighBalanceRecommendation : String :=
  "Very high balance increases the attractiveness to quantum attackers."

/-- Recommendation pushed for a balance above 100 ETH. -/
def highBalanceRecommendation : String :=
  "High balance makes this address a more valuable target for quantum attacks."

/-- Recommendation pushed for a balance above 10 ETH. -/
def moderateBalanceRecommendation : String :=
  "Moderate balance poses some risk if quantum computers become available."

/-- Recommendation pushed for an unexposed address holding funds. -/
def receiveOnlyRecommendation : String :=
  "Consider using this address only for receiving funds to maintain quantum security."

/-- Recommendation pushed for an empty address. -/
def emptyAddressRecommendation : String :=
  "Empty address has minimal quantum risk exposure."

/-- `calculateQuantumSecurityScore` from `utils/quantum-security-scorer.ts`.
The JavaScript truthiness test `if (addressData.daysSinceFirstTransaction)`
passes exactly when the field is present and nonzero. The interleaved
mutation of `score` and `recommendations` is rendered as two parallel
let-chains following the same branch structure. -/
def calculateQuantumSecurityScore (addressData : EthereumAddressData) :
    QuantumSecurityScore :=
  let score : ℤ := 100
  let recommendations : List String := []
  let publicKeyExposedPenalty : ℤ :=
    if addressData.hasOutgoingTransactions then 40 else 0
  let score := score - publicKeyExposedPenalty
  let score :=
    if addressData.hasOutgoingTransactions then
      match addressData.daysSinceFirstTransaction with
      | some days =>
        if days = 0 then score
        else if days > 365 * 2 then score - 20
        else if days > 365 then score - 15
        else if days > 180 then score - 10
        else if days > 30 then score - 5
        else score
      | none => score
    else score
  let recommendations :=
    if addressData.hasOutgoingTransactions then
      recommendations ++ [publicKeyExposedRecommendation] ++
        (match addressData.daysSinceFirstTransaction with
         | some days =>
           if days = 0 then []
           else if days > 365 * 2 then [exposedYearsRecommendation (days / 365)]
           else if days > 365 then [exposedOverAYearRecommendation (days / 365)]
           else if days > 180 then [exposedModerateMonthsRecommendation (days / 30)]
           else if days > 30 then [exposedMonthsRecommendation (days / 30)]
           else []
         | none => [])
    else recommendations ++ [noOutgoingRecommendation]
  let balanceRiskFactor : ℤ :=
    if addressData.balanceEth > 1000 then 25
    else if addressData.balanceEth > 100 then 20
    else if addressData.balanceEth > 10 then 15
    else if addressData.balanceEth > 1 then 10
    else if addressData.balanceEth > 0 then 5
    else 0
  let recommendations :=
    if addressData.balanceEth > 1000 then
      recommendations ++ [veryHighBalanceRecommendation]
    else if addressData.balanceEth > 100 then
      recommendations ++ [highBalanceRecommendation]
    else if addressData.balanceEth > 10 then
      recommendations ++ [moderateBalanceRecommendation]
    else recommendations
  let score := score - balanceRiskFactor
  let score := max 0 score
  let recommendations :=
    if addressData.hasOutgoingTransactions = false ∧ addressData.balanceEth > 0
    then recommendations ++ [receiveOnlyRecommendation]
    else recommendations
  let recommendations :=
    if addressData.balanceEth = 0
    then recommendations ++ [emptyAddressRecommendation]
    else recommendations
  ⟨score, getGrade score, getRiskLevel score, recommendations⟩

/-- `generateSecurityAnalysis` from `utils/quantum-security-scorer.ts`. -/
def generateSecurityAnalysis (addressData : EthereumAddressData) :
    EthereumSecurityAnalysis :=
  let securityScore := calculateQuantumSecurityScore addressData
  let publicKeyExposed := addressData.hasOutgoingTransactions
  let exposureDurationRisk : ℚ :=
    match addressData.daysSinceFirstTransaction with
    | some days =>
      if days = 0 then 0
      else if days > 365 * 2 then 1
      else if days > 365 then 0.8
      else if days > 180 then 0.6
      else if days > 90 then 0.4
      else if days > 30 then 0.2
      else 0
    | none => 0
  let balanceRiskFactor : ℚ :=
    if addressData.balanceEth > 1000 then 1
    else if addressData.balanceEth > 100 then 0.8
    else if addressData.balanceEth > 10 then 0.6
    else if addressData.balanceEth > 1 then 0.4
    else if addressData.balanceEth > 0 then 0.2
    else 0
  ⟨addressData.address, addressData, securityScore,
    ⟨publicKeyExposed, balanceRiskFactor, exposureDurationRisk,
      addressData.daysSinceFirstTransaction⟩⟩

/-- Modelled from the spec: the single recommendation emitted for smart
contracts, noting contract analysis is not yet supported. The revision of
`calculateQuantumSecurityScore` containing it is absent from the sources. -/
def contractComingSoonRecommendation : String :=
  "Smart contract analysis is coming soon and is not yet supported."

/-- Modelled from the spec: the exposure-warning recommendation urging fund
migration, from the missing latest revision of the scorer. -/
def specExposureRecommendation : String :=
  "Your public key has been exposed through outgoing transactions. Consider migrating funds to a fresh address to reduce quantum risk."

/-- Modelled from the spec: the recommendation to split funds across
addresses, emitted for the four highest balance brackets in the missing
latest revision of the scorer. -/
def splitFundsRecommendation : String :=
  "Consider splitting your funds across multiple addresses to reduce quantum risk."

/-- Modelled from the spec: the latest revision of
`calculateQuantumSecurityScore` is not among the source files (only its
type declarations and its caller are); this follows the canonical rule set
of the spec. If `isSmartContract` is true all deductions are skipped and a
single coming-soon recommendation is emitted. Otherwise exposure costs 40
points, the balance penalty uses descending thresholds
10000/1000/100/10/1/0 worth 55/40/30/20/10/5 points (first match wins,
applied whether or not the address is exposed, the spec sentence about
skipping being read as skipping the rest of the exposure step, as in the
superseded revisions that are in the sources), an empty address gets an
informational recommendation, an unexposed funded address a receive-only
recommendation, and the final score is clamped to the range from 0 to 100
and rounded (the identity here, scores being integer-valued). -/
def calculateQuantumSecurityScoreSpec (facts : EthereumAddressData) :
    QuantumSecurityScore :=
  if facts.isSmartContract then
    ⟨100, getGrade 100, getRiskLevel 100, [contractComingSoonRecommendation]⟩
  else
    let score : ℤ := 100
    let score := if facts.hasOutgoingTransactions then score - 40 else score
    let recommendations : List String :=
      if facts.hasOutgoingTransactions then [specExposureRecommendation]
      else [noOutgoingRecommendation]
    let balancePenalty : ℤ :=
      if facts.balanceEth > 10000 then 55
      else if facts.balanceEth > 1000 then 40
      else if facts.balanceEth > 100 then 30
      else if facts.balanceEth > 10 then 20
      else if facts.balanceEth > 1 then 10
      else if facts.balanceEth > 0 then 5
      else 0
    let recommendations :=
      if facts.balanceEth > 10 then recommendations ++ [splitFundsRecommendation]
      else if facts.balanceEth = 0 then
        recommendations ++ [emptyAddressRecommendation]
      else recommendations
    let score := score - balancePenalty
    let recommendations :=
      if facts.hasOutgoingTransactions = false ∧ facts.balanceEth > 0
      then recommendations ++ [receiveOnlyRecommendation]
      else recommendations
    let score := min 100 (max 0 score)
    ⟨score, getGrade score, getRiskLevel score, recommendations⟩

/-- Modelled from the spec: the latest revision of
`generateSecurityAnalysis` is not among the source files; this follows the
spec. The security score comes from the modelled scorer,
`publicKeyExposed` holds exactly when the address has outgoing
transactions and is not a smart contract, and the two normalized risk
factors use the documented breakpoints. -/
def generateSecurityAnalysisSpec (facts : EthereumAddressData) :
    EthereumSecurityAnalysis :=
  let securityScore := calculateQuantumSecurityScoreSpec facts
  let publicKeyExposed := facts.hasOutgoingTransactions && !facts.isSmartContract
  let exposureDurationRisk : ℚ :=
    match facts.daysSinceFirstTransaction with
    | some days =>
      if days = 0 then 0
      else if days > 730 then 1
      else if days > 365 then 0.8
      else if days > 180 then 0.6
      else if days > 90 then 0.4
      else if days > 30 then 0.2
      else 0
    | none => 0
  let balanceRiskFactor : ℚ :=
    if facts.balanceEth > 1000 then 1
    else if facts.balanceEth > 100 then 0.8
    else if facts.balanceEth > 10 then 0.6
    else if facts.balanceEth > 1 then 0.4
    else if facts.balanceEth > 0 then 0.2
    else 0
  ⟨facts.address, facts, securityScore,
    ⟨publicKeyExposed, balanceRiskFactor, exposureDurationRisk,
      facts.daysSinceFirstTransaction⟩⟩

/-- `formatExposureDuration` from `utils/quantum-security-scorer.ts`,
on whole-day inputs. -/
def formatExposureDuration (days : Nat) : String :=
  if days < 1 then "less than a day"
  else if days = 1 then "1 day"
  else if days < 30 then toString days ++ " days"
  else if days < 365 then
    let months := days / 30
    if months = 1 then "1 month" else toString months ++ " months"
  else
    let years := days / 365
    let remainingMonths := (days % 365) / 30
    if years = 1 then
      if remainingMonths > 0 then
        "1 year, " ++ toString remainingMonths ++ " months"
      else "1 year"
    else
      if remainingMonths > 0 then
        toString years ++ " years, " ++ toString remainingMonths ++ " months"
      else toString years ++ " years"

/-- Exposure-duration penalty ladder applied by the scorer in the sources:
20 points beyond two years, then 15, 10 and 5 points at the one-year,
six-month and one-month thresholds. -/
def exposureDurationPenalty (days : Nat) : ℤ :=
  if days > 730 then 20
  else if days > 365 then 15
  else if days > 180 then 10
  else if days > 30 then 5
  else 0

/-- The 40-point exposure penalty of the scorer in the sources. -/
def exposurePenaltyOf (f : EthereumAddressData) : ℤ :=
  if f.hasOutgoingTransactions then 40 else 0

/-- The duration penalty actually charged: only for exposed addresses with
a present, nonzero day count. -/
def exposureDurationPenaltyOf (f : EthereumAddressData) : ℤ :=
  if f.hasOutgoingTransactions then
    match f.daysSinceFirstTransaction with
    | some d => if d = 0 then 0 else exposureDurationPenalty d
    | none => 0
  else 0

/-- Balance penalty ladder of the scorer in the sources. -/
def balanceRiskFactorOf (b : ℚ) : ℤ :=
  if b > 1000 then 25
  else if b > 100 then 20
  else if b > 10 then 15
  else if b > 1 then 10
  else if b > 0 then 5
  else 0

/-- The block of duration recommendations pushed by the scorer in the
sources, grouped by exposure bracket. -/
def durationRecommendations (o : Option Nat) : List String :=
  match o with
  | some days =>
    if days = 0 then []
    else if days > 730 then [exposedYearsRecommendation (days / 365)]
    else if days > 365 then [exposedOverAYearRecommendation (days / 365)]
    else if days > 180 then [exposedModerateMonthsRecommendation (days / 30)]
    else if days > 30 then [exposedMonthsRecommendation (days / 30)]
    else []
  | none => []

/-- The block of balance recommendations pushed by the scorer in the
sources, one per high-balance bracket. -/
def balanceRecommendations (b : ℚ) : List String :=
  if b > 1000 then [veryHighBalanceRecommendation]
  else if b > 100 then [highBalanceRecommendation]
  else if b > 10 then [moderateBalanceRecommendation]
  else []

/-- Balance penalty ladder of the modelled latest scorer, as enumerated by
the spec: descending thresholds, first match wins. -/
def specBalancePenalty (b : ℚ) : ℤ :=
  if b > 10000 then 55
  else if b > 1000 then 40
  else if b > 100 then 30
  else if b > 10 then 20
  else if b > 1 then 10
  else if b > 0 then 5
  else 0

/-- The duration-formatting mapping as amended: identical to the claimed
mapping except that in the year branch the months clause always uses the
plural word months, even when the month count is 1; the singular form only
applies to the year count and to the below-one-year branch. -/
def formatExposureDurationAmended (days : Nat) : String :=
  if days < 1 then "less than a day"
  else if days = 1 then "1 day"
  else if days < 30 then toString days ++ " days"
  else if days < 365 then
    if days / 30 = 1 then "1 month" else toString (days / 30) ++ " months"
  else
    let yearsPart :=
      if days / 365 = 1 then "1 year" else toString (days / 365) ++ " years"
    if (days % 365) / 30 > 0 then
      yearsPart ++ ", " ++ toString ((days % 365) / 30) ++ " months"
    else yearsPart

theorem string_append_assoc (a b c : String) : a ++ b ++ c = a ++ (b ++ c) := by
  apply String.ext
  simp [String.data_append, List.append_assoc]

theorem score_decomposition (f : EthereumAddressData) :
    (calculateQuantumSecurityScore f).score =
      max 0 (100 - exposurePenaltyOf f - exposureDurationPenaltyOf f
        - balanceRiskFactorOf f.balanceEth) := by
  unfold calculateQuantumSecurityScore exposurePenaltyOf
    exposureDurationPenaltyOf exposureDurationPenalty balanceRiskFactorOf
  cases h : f.hasOutgoingTransactions <;> cases hd : f.daysSinceFirstTransaction
  all_goals simp [h, hd]
  all_goals split_ifs <;> omega

set_option maxHeartbeats 2000000 in
theorem recommendations_decomposition (f : EthereumAddressData) :
    (calculateQuantumSecurityScore f).recommendations =
      (if f.hasOutgoingTransactions then
        publicKeyExposedRecommendation ::
          durationRecommendations f.daysSinceFirstTransaction
      else [noOutgoingRecommendation])
      ++ balanceRecommendations f.balanceEth
      ++ (if f.hasOutgoingTransactions = false ∧ f.balanceEth > 0 then
            [receiveOnlyRecommendation] else [])
      ++ (if f.balanceEth = 0 then [emptyAddressRecommendation] else []) := by
  unfold calculateQuantumSecurityScore durationRecommendations
    balanceRecommendations
  cases h : f.hasOutgoingTransactions <;> cases hd : f.daysSinceFirstTransaction
  all_goals simp [h, hd]
  all_goals split_ifs <;> simp

theorem exposurePenaltyOf_bounds (f : EthereumAddressData) :
    0 ≤ exposurePenaltyOf f ∧ exposurePenaltyOf f ≤ 40 := by
  unfold exposurePenaltyOf
  split_ifs <;> omega

theorem exposureDurationPenaltyOf_bounds (f : EthereumAddressData) :
    0 ≤ exposureDurationPenaltyOf f ∧ exposureDurationPenaltyOf f ≤ 20 := by
  unfold exposureDurationPenaltyOf exposureDurationPenalty
  cases h : f.hasOutgoingTransactions <;> cases hd : f.daysSinceFirstTransaction
  all_goals simp [h, hd]
  all_goals split_ifs <;> omega

theorem balanceRiskFactorOf_bounds (b : ℚ) :
    0 ≤ balanceRiskFactorOf b ∧ balanceRiskFactorOf b ≤ 25 := by
  unfold balanceRiskFactorOf
  split_ifs <;> omega

theorem getGrade_ne_E (s : ℤ) : getGrade s ≠ Grade.E := by
  unfold getGrade
  split_ifs <;> simp

/-- Claim C5: for every input, the grade and risk level returned by
`calculateQuantumSecurityScore` are derived from the returned (rounded)
score through the fixed breakpoint tables `getGrade` and `getRiskLevel`,
and grade E is never produced. -/
theorem scorer_grade_riskLevel_from_score (f : EthereumAddressData) :
    (calculateQuantumSecurityScore f).grade =
      getGrade (calculateQuantumSecurityScore f).score ∧
    (calculateQuantumSecurityScore f).riskLevel =
      getRiskLevel (calculateQuantumSecurityScore f).score ∧
    (calculateQuantumSecurityScore f).grade ≠ Grade.E := by
  refine ⟨?_, ?_, ?_⟩
  · simp [calculateQuantumSecurityScore]
  · simp [calculateQuantumSecurityScore]
  · simp only [calculateQuantumSecurityScore]
    exact getGrade_ne_E _

/-- Claim C6: for every input, whatever the magnitude of the balance or of
the day count, the score returned by `calculateQuantumSecurityScore` lies
between 0 and 100 (it is an integer by type). -/
theorem scorer_score_bounded (f : EthereumAddressData) :
    0 ≤ (calculateQuantumSecurityScore f).score ∧
    (calculateQuantumSecurityScore f).score ≤ 100 := by
  rw [score_decomposition]
  have h1 := exposurePenaltyOf_bounds f
  have h2 := exposureDurationPenaltyOf_bounds f
  have h3 := balanceRiskFactorOf_bounds f.balanceEth
  omega

/-- Claim C8: an exposed address never scores higher than the otherwise
identical unexposed address with the optional exposure fields absent. -/
theorem scorer_exposure_monotone (address ensName balance : String)
    (balanceEth : ℚ) (t d : Option Nat) (isContract : Bool) :
    (calculateQuantumSecurityScore
      ⟨address, ensName, balance, balanceEth, true, t, d, isContract⟩).score ≤
    (calculateQuantumSecurityScore
      ⟨address, ensName, balance, balanceEth, false, none, none,
        isContract⟩).score := by
  rw [score_decomposition, score_decomposition]
  have h2 := exposureDurationPenaltyOf_bounds
    ⟨address, ensName, balance, balanceEth, true, t, d, isContract⟩
  have h3 := balanceRiskFactorOf_bounds balanceEth
  have e1 : exposurePenaltyOf
      ⟨address, ensName, balance, balanceEth, true, t, d, isContract⟩ = 40 := rfl
  have e2 : exposurePenaltyOf
      ⟨address, ensName, balance, balanceEth, false, none, none, isContract⟩ = 0 := rfl
  have e3 : exposureDurationPenaltyOf
      ⟨address, ensName, balance, balanceEth, false, none, none, isContract⟩ = 0 := rfl
  rw [e1, e2, e3]
  dsimp only
  omega

/-- Claim C9: `generateSecurityAnalysis` passes the address through, embeds
the input facts unchanged, reuses `calculateQuantumSecurityScore`, and
reports the input day count as `daysSinceExposure`. -/
theorem generateSecurityAnalysis_frame (f : EthereumAddressData) :
    (generateSecurityAnalysis f).address = f.address ∧
    (generateSecurityAnalysis f).addressData = f ∧
    (generateSecurityAnalysis f).securityScore =
      calculateQuantumSecurityScore f ∧
    (generateSecurityAnalysis f).analysisDetails.daysSinceExposure =
      f.daysSinceFirstTransaction := by
  exact ⟨rfl, rfl, rfl, rfl⟩

/-- Claim C10: the recommendation list produced by
`calculateQuantumSecurityScore` is never empty; it always contains the
exposure warning for exposed addresses and the positive no-exposure
recommendation otherwise. -/
theorem scorer_recommendations_nonempty (f : EthereumAddressData) :
    (if f.hasOutgoingTransactions then publicKeyExposedRecommendation
      else noOutgoingRecommendation) ∈
        (calculateQuantumSecurityScore f).recommendations ∧
    (calculateQuantumSecurityScore f).recommendations ≠ [] := by
  rw [recommendations_decomposition]
  cases h : f.hasOutgoingTransactions <;> simp [h]

/-- Claim C4: for exposed addresses with a present nonzero day count, the
scorer charges the duration ladder (20, 15, 10 or 5 points beyond the
730-day, 365-day, 180-day and 30-day thresholds) on top of the 40-point
exposure penalty, and each nonzero duration penalty comes with its
bracket-specific recommendation. -/
theorem scorer_exposureDuration_penalty (f : EthereumAddressData) (d : Nat)
    (h1 : f.hasOutgoingTransactions = true)
    (h2 : f.daysSinceFirstTransaction = some d) (h3 : d ≠ 0) :
    (calculateQuantumSecurityScore f).score =
      max 0 (100 - 40 - exposureDurationPenalty d
        - balanceRiskFactorOf f.balanceEth) ∧
    (730 < d → exposedYearsRecommendation (d / 365) ∈
      (calculateQuantumSecurityScore f).recommendations) ∧
    (365 < d → d ≤ 730 → exposedOverAYearRecommendation (d / 365) ∈
      (calculateQuantumSecurityScore f).recommendations) ∧
    (180 < d → d ≤ 365 → exposedModerateMonthsRecommendation (d / 30) ∈
      (calculateQuantumSecurityScore f).recommendations) ∧
    (30 < d → d ≤ 180 → exposedMonthsRecommendation (d / 30) ∈
      (calculateQuantumSecurityScore f).recommendations) := by
  rw [score_decomposition, recommendations_decomposition]
  refine ⟨?_, ?_, ?_, ?_, ?_⟩
  · simp [exposurePenaltyOf, exposureDurationPenaltyOf, h1, h2, h3]
  · intro hgt
    simp [h1, h2, durationRecommendations, h3, hgt]
  · intro hgt hle
    have hn : ¬(730 < d) := by omega
    simp [h1, h2, durationRecommendations, h3, hgt, hn]
  · intro hgt hle
    have hn1 : ¬(730 < d) := by omega
    have hn2 : ¬(365 < d) := by omega
    simp [h1, h2, durationRecommendations, h3, hgt, hn1, hn2]
  · intro hgt hle
    have hn1 : ¬(730 < d) := by omega
    have hn2 : ¬(365 < d) := by omega
    have hn3 : ¬(180 < d) := by omega
    simp [h1, h2, durationRecommendations, h3, hgt, hn1, hn2, hn3]

/-- Witness for claim C4 at a concrete exposed input with 400 days of
exposure and a 50 ETH balance. -/
theorem scorer_exposureDuration_penalty_witness :
    (calculateQuantumSecurityScore
      ⟨"0x1", "", "50000000000000000000", 50, true, some 1700000000,
        some 400, false⟩).score =
      max 0 (100 - 40 - exposureDurationPenalty 400
        - balanceRiskFactorOf 50) ∧
    (365 < 400 → 400 ≤ 730 → exposedOverAYearRecommendation (400 / 365) ∈
      (calculateQuantumSecurityScore
        ⟨"0x1", "", "50000000000000000000", 50, true, some 1700000000,
          some 400, false⟩).recommendations) := by
  have h := scorer_exposureDuration_penalty
    ⟨"0x1", "", "50000000000000000000", 50, true, some 1700000000,
      some 400, false⟩ 400 rfl rfl (by decide)
  exact ⟨h.1, h.2.2.1⟩

/-- Claim C1: for smart contracts the modelled latest scorer skips every
deduction: score 100, grade A+, exactly the single coming-soon
recommendation, and the modelled analysis reports the public key as not
exposed. -/
theorem specScorer_smartContract_shortCircuit (f : EthereumAddressData)
    (h : f.isSmartContract = true) :
    (calculateQuantumSecurityScoreSpec f).score = 100 ∧
    (calculateQuantumSecurityScoreSpec f).grade = Grade.APlus ∧
    (calculateQuantumSecurityScoreSpec f).recommendations =
      [contractComingSoonRecommendation] ∧
    (generateSecurityAnalysisSpec f).analysisDetails.publicKeyExposed =
      false := by
  unfold calculateQuantumSecurityScoreSpec generateSecurityAnalysisSpec
  simp [h, getGrade]

/-- Witness for claim C1 at a concrete smart-contract input. -/
theorem specScorer_smartContract_shortCircuit_witness :
    (⟨"0x2", "", "0", 0, false, none, none, true⟩ :
      EthereumAddressData).isSmartContract = true ∧
    (calculateQuantumSecurityScoreSpec
      ⟨"0x2", "", "0", 0, false, none, none, true⟩).score = 100 ∧
    (calculateQuantumSecurityScoreSpec
      ⟨"0x2", "", "0", 0, false, none, none, true⟩).grade = Grade.APlus ∧
    (calculateQuantumSecurityScoreSpec
      ⟨"0x2", "", "0", 0, false, none, none, true⟩).recommendations =
      [contractComingSoonRecommendation] ∧
    (generateSecurityAnalysisSpec
      ⟨"0x2", "", "0", 0, false, none, none, true⟩).analysisDetails.publicKeyExposed =
      false :=
  ⟨rfl, specScorer_smartContract_shortCircuit
    ⟨"0x2", "", "0", 0, false, none, none, true⟩ rfl⟩

/-- Claim C3: for non-contracts the modelled latest scorer deducts the
balance penalty of the first matching descending threshold (55, 40, 30,
20, 10, 5 points above 10000, 1000, 100, 10, 1 and 0 ETH), with no double
counting, whether or not the address is exposed; the split-your-funds
recommendation appears exactly for balances above 10 ETH and the
empty-address recommendation exactly for a zero balance. -/
theorem specScorer_balancePenalty_ladder (f : EthereumAddressData)
    (h : f.isSmartContract = false) :
    (calculateQuantumSecurityScoreSpec f).score =
      min 100 (max 0 (100 - (if f.hasOutgoingTransactions then (40:ℤ) else 0)
        - specBalancePenalty f.balanceEth)) ∧
    (splitFundsRecommendation ∈
        (calculateQuantumSecurityScoreSpec f).recommendations ↔
      f.balanceEth > 10) ∧
    (emptyAddressRecommendation ∈
        (calculateQuantumSecurityScoreSpec f).recommendations ↔
      f.balanceEth = 0) := by
  unfold calculateQuantumSecurityScoreSpec specBalancePenalty
  cases hh : f.hasOutgoingTransactions <;>
    simp [h, hh, splitFundsRecommendation, specExposureRecommendation,
      noOutgoingRecommendation, emptyAddressRecommendation,
      receiveOnlyRecommendation] <;>
    split_ifs <;>
    simp_all
  all_goals intro he
  all_goals linarith

/-- Witness for claim C3 at a concrete exposed ten-million ETH input. -/
theorem specScorer_balancePenalty_ladder_witness :
    (⟨"0x3", "", "1", 10000000, true, some 1700000000, some 400, false⟩ :
      EthereumAddressData).isSmartContract = false ∧
    ((calculateQuantumSecurityScoreSpec
      ⟨"0x3", "", "1", 10000000, true, some 1700000000, some 400,
        false⟩).score =
      min 100 (max 0 (100 - (if (true : Bool) then (40:ℤ) else 0)
        - specBalancePenalty 10000000)) ∧
    (splitFundsRecommendation ∈
        (calculateQuantumSecurityScoreSpec
          ⟨"0x3", "", "1", 10000000, true, some 1700000000, some 400,
            false⟩).recommendations ↔
      (10000000 : ℚ) > 10) ∧
    (emptyAddressRecommendation ∈
        (calculateQuantumSecurityScoreSpec
          ⟨"0x3", "", "1", 10000000, true, some 1700000000, some 400,
            false⟩).recommendations ↔
      (10000000 : ℚ) = 0)) :=
  ⟨rfl, specScorer_balancePenalty_ladder
    ⟨"0x3", "", "1", 10000000, true, some 1700000000, some 400, false⟩ rfl⟩

/-- Claim C2 counterexample: on the facts with a 50 ETH balance, outgoing
transactions and 400 days of exposure, the modelled latest scorer does
score 40 and risk High, but the grade table maps 40 to F, not D, so the
claim as stated is false. -/
theorem specScorer_fiftyEth_claim_refuted :
    ¬((calculateQuantumSecurityScoreSpec
        ⟨"0x4", "", "50000000000000000000", 50, true, some 1700000000,
          some 400, false⟩).score = 40 ∧
      (calculateQuantumSecurityScoreSpec
        ⟨"0x4", "", "50000000000000000000", 50, true, some 1700000000,
          some 400, false⟩).grade = Grade.D ∧
      (calculateQuantumSecurityScoreSpec
        ⟨"0x4", "", "50000000000000000000", 50, true, some 1700000000,
          some 400, false⟩).riskLevel = RiskLevel.high) := by
  decide

/-- Claim C2 as amended: the same facts yield score 40 and risk level High,
but grade F, since 40 is below the 50-point floor of grade D. -/
theorem specScorer_fiftyEth_amended :
    (calculateQuantumSecurityScoreSpec
      ⟨"0x4", "", "50000000000000000000", 50, true, some 1700000000,
        some 400, false⟩).score = 40 ∧
    (calculateQuantumSecurityScoreSpec
      ⟨"0x4", "", "50000000000000000000", 50, true, some 1700000000,
        some 400, false⟩).grade = Grade.F ∧
    (calculateQuantumSecurityScoreSpec
      ⟨"0x4", "", "50000000000000000000", 50, true, some 1700000000,
        some 400, false⟩).riskLevel = RiskLevel.high := by
  decide

/-- Claim C7 counterexample: at 400 days the formatter pluralizes the
single remaining month, so the claimed singular output is not produced. -/
theorem formatExposureDuration_400_refuted :
    formatExposureDuration 400 ≠ "1 year, 1 month" := by
  decide

/-- Claim C7 as amended: the formatter follows the claimed mapping except
that in the at-least-one-year branch the months clause always uses the
plural word, so 400 days formats as 1 year, 1 months. -/
theorem formatExposureDuration_amended_correct :
    (∀ days : Nat,
      formatExposureDuration days = formatExposureDurationAmended days) ∧
    formatExposureDuration 400 = "1 year, 1 months" := by
  constructor
  · intro days
    unfold formatExposureDuration formatExposureDurationAmended
    simp only []
    split_ifs with h1 h2 h3 h4 h5 h6 h7 h8
    any_goals rfl
    rw [show (" years, " : String) = " years" ++ ", " from by decide]
    simp only [string_append_assoc]
  · decide
